import Mathlib

/-!
Verification development for the SolarMatch rooftop solar analysis core.

The definitions below are a shallow embedding of the Python source files
backend/core/geotiff_processor.py, backend/core/resultMath.py and
backend/core/unified_solar_service.py.  IEEE-754 float arithmetic is
modelled by exact rational arithmetic; non-finite floats (NaN and the
infinities) are modelled explicitly because the statistics routine
filters them out.  Network and raster-decoding effects are modelled by
explicit outcome values (an Except value standing for a raised
exception), and the Python catch-all except blocks by matching on those
outcomes.
-/

namespace SolarMatch

/-- Model of a numpy/Python double: either a finite value (an exact
rational), a signed infinity, or NaN. -/
inductive PyFloat where
  | fin (q : ℚ)
  | inf (pos : Bool)
  | nan
deriving DecidableEq

/-- np.isfinite: true only for finite values. -/
def PyFloat.isFinite : PyFloat → Bool
  | .fin _ => true
  | .inf _ => false
  | .nan => false

/-- The rational value of a finite float, none for NaN and infinities. -/
def PyFloat.toRat : PyFloat → Option ℚ
  | .fin q => some q
  | .inf _ => none
  | .nan => none

/-- Comparison float > threshold as numpy evaluates it: NaN compares
false, +inf compares true, -inf compares false. -/
def PyFloat.gtQ : PyFloat → ℚ → Bool
  | .fin q, t => decide (t < q)
  | .inf pos, _ => pos
  | .nan, _ => false

/-- Result dictionary of GeoTIFFProcessor.get_statistics.  The std
field of the source is the square root of var; since the square root of
a rational is irrational in general, the model stores the variance
(std squared): std is null exactly when var is null, and std is a
finite float exactly when var is a finite nonnegative rational. -/
structure Stats where
  min : Option ℚ
  max : Option ℚ
  mean : Option ℚ
  var : Option ℚ
  median : Option ℚ
  count : ℕ
deriving DecidableEq

/-- The valid samples of a possibly masked float array: compressed
(masked entries dropped, the Bool flag true meaning masked out) and then
restricted to finite values, exactly as in get_statistics lines 360-365:
array.compressed() followed by array[np.isfinite(array)]. -/
def validSamples (arr : List (PyFloat × Bool)) : List ℚ :=
  ((arr.filter (fun p => !p.2)).map Prod.fst).filterMap PyFloat.toRat

/-- np.min over a nonempty list, none on the empty list. -/
def listMin : List ℚ → Option ℚ
  | [] => none
  | x :: xs => some (xs.foldl min x)

/-- np.max over a nonempty list, none on the empty list. -/
def listMax : List ℚ → Option ℚ
  | [] => none
  | x :: xs => some (xs.foldl max x)

/-- np.mean: sum divided by length (only used on nonempty lists). -/
def listMean (l : List ℚ) : ℚ := l.sum / l.length

/-- np.var, the square of np.std: mean of squared deviations from the
mean. -/
def listVar (l : List ℚ) : ℚ :=
  ((l.map (fun x => (x - listMean l) ^ 2)).sum) / l.length

/-- np.median: middle element of the sorted list, or the average of the
two middle elements when the length is even. -/
def listMedian (l : List ℚ) : ℚ :=
  let s := List.insertionSort (· ≤ ·) l
  if s.length % 2 = 1 then s.getD (s.length / 2) 0
  else (s.getD (s.length / 2 - 1) 0 + s.getD (s.length / 2) 0) / 2

/-- GeoTIFFProcessor.get_statistics (geotiff_processor.py lines
350-384): compress a masked array, drop non-finite values, and return
the all-null dictionary with count 0 when no valid sample remains,
otherwise the five summary statistics together with the valid-sample
count.  Total by construction: it never raises. -/
def get_statistics (arr : List (PyFloat × Bool)) : Stats :=
  let vals := validSamples arr
  if vals.isEmpty then ⟨none, none, none, none, none, 0⟩
  else ⟨listMin vals, listMax vals, some (listMean vals),
        some (listVar vals), some (listMedian vals), vals.length⟩

/-- A decoded flux raster (geotiff_to_array): grid shape plus the
flattened float samples. -/
structure FluxRaster where
  shape : List ℕ
  data : List PyFloat
deriving DecidableEq

/-- A decoded mask raster: grid shape plus the flattened uint8 samples
(Google mask layers are unsigned 8-bit grids). -/
structure MaskRaster where
  shape : List ℕ
  data : List ℕ
deriving DecidableEq

/-- The per-pixel physical size from the raster metadata, metadata
key resolution, in meters. -/
structure Resolution where
  x : ℚ
  y : ℚ
deriving DecidableEq

/-- np.count_nonzero over the flattened samples. -/
def count_nonzero (l : List ℕ) : ℕ := l.countP (fun v => decide (v ≠ 0))

/-- numpy shape broadcasting over reversed dimension lists (innermost
axis first): the shorter shape is implicitly padded with leading ones,
and two axis sizes are compatible when they are equal or one of them
is 1, the result taking the larger size. -/
def broadcastDims : List ℕ → List ℕ → Option (List ℕ)
  | [], bs => some bs
  | as, [] => some as
  | a :: as, b :: bs =>
      match broadcastDims as bs with
      | none => none
      | some cs =>
          if a = b then some (a :: cs)
          else if a = 1 then some (b :: cs)
          else if b = 1 then some (a :: cs)
          else none

/-- numpy broadcasting of two shapes: axes are aligned from the right
(outermost axis first in the shape lists, so both are reversed first);
none models the ValueError for incompatible shapes. -/
def broadcastShapes (sa sb : List ℕ) : Option (List ℕ) :=
  (broadcastDims sa.reverse sb.reverse).map List.reverse

/-- All multi-indices of a shape, in row-major order. -/
def allIndices : List ℕ → List (List ℕ)
  | [] => [[]]
  | d :: rest =>
      (List.range d).flatMap (fun i => (allIndices rest).map (fun idx => i :: idx))

/-- Row-major flat position of a multi-index within a shape. -/
def flatIndex (shape idx : List ℕ) : ℕ :=
  (List.zip shape idx).foldl (fun acc p => acc * p.1 + p.2) 0

/-- The operand index a broadcast read uses at a result index: leading
result axes beyond the operand rank are dropped (numpy pads the operand
shape with leading ones) and axes of size one are pinned to 0. -/
def sourceIndex (shape idx : List ℕ) : List ℕ :=
  List.zipWith (fun d i => if d = 1 then 0 else i) shape
    (idx.drop (idx.length - shape.length))

/-- numpy elementwise AND mask_array & good_flux_mask
(resultMath.py line 61): the boolean operand is promoted to uint8
(true is 1), so each output sample is the bitwise AND of the mask
sample with 1 - its low bit, written here as mod 2 - where the flux is
good, and 0 elsewhere.  Identical shapes combine position by position
(the zipWith branch, which is what the general broadcast read
degenerates to when the data length matches the shape product, as in
every decoded raster).  Unequal shapes follow numpy broadcasting: when
the shapes are compatible through size-one axes the operands are
silently stretched and combined over the broadcast shape, and only
incompatible shapes raise ValueError, modelled by the error branch. -/
def numpyAndBool (m : MaskRaster) (fluxShape : List ℕ) (good : List Bool) :
    Except String (List ℕ) :=
  if m.shape = fluxShape then
    Except.ok (List.zipWith (fun mv b => if b then mv % 2 else 0) m.data good)
  else
    match broadcastShapes m.shape fluxShape with
    | none => Except.error "operands could not be broadcast together"
    | some s =>
        Except.ok ((allIndices s).map (fun idx =>
          if good.getD (flatIndex fluxShape (sourceIndex fluxShape idx)) false
          then (m.data.getD (flatIndex m.shape (sourceIndex m.shape idx)) 0) % 2
          else 0))

/-- Python truthiness of an optional string: None and the empty string
are falsy.  Used for data_layers.get(...) checks and for the cache_key
check in download_geotiff. -/
def truthy : Option String → Bool
  | none => false
  | some s => s != ""

/-- The dataLayers dictionary returned by the high-resolution provider
(solar_api.get_data_layers), restricted to the keys the analysis
reads. -/
structure DataLayers where
  annualFluxUrl : Option String
  maskUrl : Option String
deriving DecidableEq

/-- Outcomes of the processor calls issued by SolarAnalysis.analyze:
download_geotiff followed by geotiff_to_array for the flux layer and,
when requested, for the mask layer (whose metadata supplies the pixel
resolution).  An error value stands for a raised exception (network
failure of the download or decode failure), to be caught by the
catch-all except of analyze. -/
structure AnalyzeEnv where
  fluxFetch : Except String FluxRaster
  maskFetch : Except String (MaskRaster × Resolution)

/-- Panel density constant of the high-resolution path: 5.5 square
meters per kWp (resultMath.py line 77). -/
def area_per_kwp : ℚ := 11 / 2

/-- System performance ratio, 0.82, the sole loss multiplier of the
energy formula (resultMath.py line 76). -/
def performance_ratio : ℚ := 82 / 100

/-- Declared in resultMath.py line 75 but not used by the corrected
energy formula. -/
def panel_efficiency : ℚ := 1 / 5

/-- Capacity sizing (resultMath.py line 82): usable area divided by the
area-per-kWp constant, guarded to 0 for a non-positive area. -/
def capacity_kwp (usable_area apk : ℚ) : ℚ :=
  if usable_area > 0 then usable_area / apk else 0

/-- Energy model (resultMath.py line 88): capacity times mean flux
(already per installed kWp) times the performance ratio. -/
def annual_energy_kwh (cap mean_flux pr : ℚ) : ℚ := cap * mean_flux * pr

/-- flux_stats.get(mean, 0) * 0.75 (resultMath.py line 57): the stats
dictionary always carries the mean key, so the stored value is returned
even when it is None - the default 0 is never taken - and multiplying
None by a float raises TypeError, caught later by the catch-all. -/
def flux_threshold (mean : Option ℚ) : Except String ℚ :=
  match mean with
  | some m => Except.ok (m * (3 / 4))
  | none => Except.error "unsupported operand type for *: NoneType and float"

/-- Successful result dictionary of SolarAnalysis.analyze.  The source
additionally rounds each reported number to two decimals for display
(round(x, 2)); the model keeps the exact computed values, the rounding
being a display concern orthogonal to the claims.  The three
calculation_notes area fields are included since the invariants quantify
over them. -/
structure AnalysisOk where
  flux_stats : Stats
  estimated_roof_area_sq_meters : ℚ
  usable_roof_area_sq_meters : ℚ
  estimated_capacity_kwp : ℚ
  estimated_annual_energy_kwh : ℚ
  total_roof_area_m2 : ℚ
  theoretically_usable_area_m2 : ℚ
  practical_usable_area_m2 : ℚ
deriving DecidableEq

/-- A result of SolarAnalysis.analyze: either an error dictionary with
its error and message fields, or the analysis dictionary. -/
inductive AnalyzeResult where
  | err (error message : String)
  | ok (r : AnalysisOk)
deriving DecidableEq

/-- The mask branch of SolarAnalysis.analyze (resultMath.py lines
44-72): fetch and decode the mask raster, read the pixel resolution
from its metadata, count the roof pixels, derive the flux threshold
from the statistics mean, build the good-flux boolean array by strict
comparison, AND it with the mask, and scale the two usable areas.
Returns the triple (total roof area, practically usable area,
theoretically usable area before the reporting guard); the intermediate
locals pixel_area, roof_pixels, roof_area, good_flux_mask and
usable_pixels of the source are inlined into the final triple, which
does not change any computed value. -/
def maskBranch (flux : FluxRaster) (flux_stats : Stats) (env : AnalyzeEnv) :
    Except String (ℚ × ℚ × ℚ) :=
  match env.maskFetch with
  | .error e => .error e
  | .ok md =>
      match flux_threshold flux_stats.mean with
      | .error e => .error e
      | .ok thr =>
          match numpyAndBool md.1 flux.shape
              (flux.data.map (fun v => v.gtQ thr)) with
          | .error e => .error e
          | .ok combined =>
              .ok ((count_nonzero md.1.data : ℚ) * (md.2.x * md.2.y),
                ((count_nonzero combined : ℚ) * (md.2.x * md.2.y)) * (55 / 100),
                (count_nonzero combined : ℚ) * (md.2.x * md.2.y))

/-- Assembling the result dictionary of SolarAnalysis.analyze (lines
95-117) from the statistics and the area triple (total, practical,
theoretical): mean_flux falls back to 0 when the stats mean is None
(the or 0 of line 79), capacity and energy follow, and the reported
theoretical area is zeroed when the practical area is not positive
(line 109). -/
def mkAnalysisOk (flux_stats : Stats) (areas : ℚ × ℚ × ℚ) : AnalysisOk :=
  let mean_flux := flux_stats.mean.getD 0
  let cap := capacity_kwp areas.2.1 area_per_kwp
  let energy := annual_energy_kwh cap mean_flux performance_ratio
  { flux_stats := flux_stats
    estimated_roof_area_sq_meters := areas.1
    usable_roof_area_sq_meters := areas.2.1
    estimated_capacity_kwp := cap
    estimated_annual_energy_kwh := energy
    total_roof_area_m2 := areas.1
    theoretically_usable_area_m2 := if areas.2.1 > 0 then areas.2.2 else 0
    practical_usable_area_m2 := areas.2.1 }

/-- The flux_stats of resultMath.py line 38: get_statistics applied to
the decoded flux array, which is a plain (unmasked) float array. -/
def analysisStats (flux : FluxRaster) : Stats :=
  get_statistics (flux.data.map (fun v => (v, false)))

/-- Body of the try block of SolarAnalysis.analyze (resultMath.py lines
34-117), with each step that can raise propagating its exception:
flux download and decode, statistics, the optional mask branch (taken
when the maskUrl entry is truthy, otherwise the three areas stay at
their zero initialisation of lines 40-42), then capacity and energy. -/
def analyzeCore (layers : DataLayers) (env : AnalyzeEnv) :
    Except String AnalysisOk :=
  match env.fluxFetch with
  | .error e => .error e
  | .ok flux =>
      match (if truthy layers.maskUrl then
               maskBranch flux (analysisStats flux) env
             else .ok ((0 : ℚ), (0 : ℚ), (0 : ℚ))) with
      | .error e => .error e
      | .ok areas => .ok (mkAnalysisOk (analysisStats flux) areas)

/-- SolarAnalysis.analyze: the coverage check on the flux url
(falsy dictionary lookup, lines 28-32), then the try block with the
catch-all except turning any raised exception into the error
dictionary of lines 118-122. -/
def analyze (layers : DataLayers) (env : AnalyzeEnv) : AnalyzeResult :=
  if !truthy layers.annualFluxUrl then
    .err "Annual flux data not available for this location."
      "This location may not be covered by Google Solar API. Try a different address in a supported area."
  else
    match analyzeCore layers env with
    | .ok r => .ok r
    | .error e =>
        .err ("Failed to process solar data: " ++ e)
          "An error occurred while analyzing the solar data. Please try again."

/-- PVGIS response dictionary (pvgis_client.get_solar_radiation) as read
by the fallback path; only the per-kWp yield influences the computed
numbers, and the source reads it with pvgis_data.get(key, 0), modelled
by getD 0 on an optional field. -/
structure PvgisData where
  annual_pv_energy_per_kwp : Option ℚ
deriving DecidableEq

/-- Panel density constant re-declared locally in the fallback path
(unified_solar_service.py line 133). -/
def pvgis_area_per_kwp : ℚ := 11 / 2

/-- Performance ratio re-declared locally in the fallback path
(unified_solar_service.py line 132). -/
def pvgis_performance_ratio : ℚ := 82 / 100

/-- Default roof-area assumption of the fallback path when the caller
supplies none (unified_solar_service.py line 116). -/
def default_roof_area : ℚ := 100

/-- Numeric fields of the result dictionary built by
UnifiedSolarService._get_pvgis_analysis (again without the two-decimal
display rounding). -/
structure PvgisOk where
  estimated_roof_area_sq_meters : ℚ
  usable_roof_area_sq_meters : ℚ
  estimated_capacity_kwp : ℚ
  estimated_annual_energy_kwh : ℚ
deriving DecidableEq

/-- The unified result returned to the caller, tagged with its
data_source (Google Solar API or PVGIS). -/
inductive UnifiedResult where
  | googleResult (r : AnalysisOk)
  | pvgisResult (r : PvgisOk)
deriving DecidableEq

/-- Outcomes of the external calls the selector can make: the
high-resolution provider dataLayers request, the processor calls behind
SolarAnalysis.analyze, and the PVGIS request.  An error value stands
for a raised exception. -/
structure SelectorEnv where
  googleLayers : Except String DataLayers
  analyzeEnv : AnalyzeEnv
  pvgisFetch : Except String PvgisData

/-- UnifiedSolarService._get_pvgis_analysis (lines 96-195): on a PVGIS
failure the exception is re-raised to the caller (Except.error);
otherwise the default 100 square meter roof area is assumed when the
caller gave none, a 55 percent usability factor is applied, capacity is
usable area over 5.5 with no positivity guard, and energy is the
per-kWp yield times capacity times 0.82.  The SEAI grant enrichment is
not modelled (it only adds display fields). -/
def get_pvgis_analysis (env : SelectorEnv) (estimated_roof_area : Option ℚ) :
    Except String UnifiedResult :=
  match env.pvgisFetch with
  | .error e => .error ("Unable to analyze solar potential: " ++ e)
  | .ok d =>
      let area := estimated_roof_area.getD default_roof_area
      let usable := area * (55 / 100)
      let per_kwp := d.annual_pv_energy_per_kwp.getD 0
      let cap := usable / pvgis_area_per_kwp
      let energy := per_kwp * cap * pvgis_performance_ratio
      .ok (.pvgisResult ⟨area, usable, cap, energy⟩)

/-- UnifiedSolarService.get_solar_analysis (lines 30-94): try the
high-resolution provider first; fall to the PVGIS branch when the
provider call raises, when the response has no truthy annualFluxUrl, or
when SolarAnalysis.analyze comes back with an error field; return the
high-resolution result otherwise. -/
def get_solar_analysis (env : SelectorEnv) (estimated_roof_area : Option ℚ) :
    Except String UnifiedResult :=
  match env.googleLayers with
  | .error _ => get_pvgis_analysis env estimated_roof_area
  | .ok layers =>
      if truthy layers.annualFluxUrl then
        match analyze layers env.analyzeEnv with
        | .ok r => .ok (.googleResult r)
        | .err _ _ => get_pvgis_analysis env estimated_roof_area
      else
        get_pvgis_analysis env estimated_roof_area

/-- Lookup in the byte cache, modelled as an association list from key
to cached bytes (the .tif file under cache_dir). -/
def cacheLookup (cache : List (String × List ℕ)) (k : String) :
    Option (List ℕ) :=
  (cache.find? (fun p => p.1 == k)).map Prod.snd

/-- Writing the downloaded bytes under the key (cache_file.write_bytes). -/
def cacheInsert (cache : List (String × List ℕ)) (k : String)
    (b : List ℕ) : List (String × List ℕ) :=
  (k, b) :: cache

/-- Appending the API key as a query parameter (geotiff_processor.py
lines 50-54); the api_key argument models key = api_key or
self.api_key already combined. -/
def withApiKey (url : String) (api_key : Option String) : String :=
  if truthy api_key then
    url ++ (if url.contains (Char.ofNat 63) then "&" else "?")
        ++ "key=" ++ api_key.getD ""
  else url

/-- Outcome of one download_geotiff call: the returned bytes or the
raised exception, the cache state afterwards, and how many network
requests were issued (0 or 1). -/
structure FetchResult where
  outcome : Except String (List ℕ)
  cache : List (String × List ℕ)
  requests : ℕ

/-- GeoTIFFProcessor.download_geotiff (lines 32-67): when cache_key is
truthy and a file for it exists, return the cached bytes with no
network request; otherwise perform the HTTP GET (the net argument gives
its outcome per url), and on success write the bytes under the key
(when the key is truthy) before returning them.  An untruthy cache_key
- None, and also the empty string, which Python's if cache_key treats
the same way - bypasses the cache entirely. -/
def download_geotiff (cache : List (String × List ℕ))
    (net : String → Except String (List ℕ)) (url : String)
    (cache_key : Option String) (api_key : Option String) : FetchResult :=
  let hit :=
    if truthy cache_key then cacheLookup cache (cache_key.getD "") else none
  match hit with
  | some b => ⟨.ok b, cache, 0⟩
  | none =>
      match net (withApiKey url api_key) with
      | .error e => ⟨.error e, cache, 1⟩
      | .ok b =>
          if truthy cache_key then
            ⟨.ok b, cacheInsert cache (cache_key.getD "") b, 1⟩
          else
            ⟨.ok b, cache, 1⟩

/-! Helper lemmas about the list-level building blocks. -/

theorem validSamples_replicate_fin (n : ℕ) (q : ℚ) :
    validSamples (List.replicate n (PyFloat.fin q, false)) = List.replicate n q := by
  induction n with
  | zero => rfl
  | succ n ih =>
      simp only [validSamples, List.replicate_succ, List.filter_cons] at ih ⊢
      simp [PyFloat.toRat, ih]

theorem foldl_min_replicate (n : ℕ) (q : ℚ) :
    (List.replicate n q).foldl min q = q := by
  induction n with
  | zero => rfl
  | succ n ih => simpa [List.replicate_succ] using ih

theorem foldl_max_replicate (n : ℕ) (q : ℚ) :
    (List.replicate n q).foldl max q = q := by
  induction n with
  | zero => rfl
  | succ n ih => simpa [List.replicate_succ] using ih

theorem listMin_replicate (n : ℕ) (q : ℚ) (h : n ≠ 0) :
    listMin (List.replicate n q) = some q := by
  cases n with
  | zero => exact absurd rfl h
  | succ n => simp [List.replicate_succ, listMin, foldl_min_replicate]

theorem listMax_replicate (n : ℕ) (q : ℚ) (h : n ≠ 0) :
    listMax (List.replicate n q) = some q := by
  cases n with
  | zero => exact absurd rfl h
  | succ n => simp [List.replicate_succ, listMax, foldl_max_replicate]

theorem listMean_replicate (n : ℕ) (q : ℚ) (h : n ≠ 0) :
    listMean (List.replicate n q) = q := by
  have hn : (n : ℚ) ≠ 0 := Nat.cast_ne_zero.mpr h
  simp only [listMean, List.sum_replicate, List.length_replicate, nsmul_eq_mul]
  field_simp

theorem listVar_replicate (n : ℕ) (q : ℚ) (h : n ≠ 0) :
    listVar (List.replicate n q) = 0 := by
  simp [listVar, List.map_replicate, listMean_replicate n q h, List.sum_replicate]

theorem getD_replicate : ∀ (n i : ℕ) (x d : ℚ), i < n →
    (List.replicate n x).getD i d = x := by
  intro n
  induction n with
  | zero => intro i x d h; omega
  | succ n ih =>
      intro i x d h
      cases i with
      | zero => simp [List.replicate_succ, List.getD]
      | succ i => simpa [List.replicate_succ, List.getD] using ih i x d (by omega)

theorem listMedian_replicate (n : ℕ) (q : ℚ) (h : n ≠ 0) :
    listMedian (List.replicate n q) = q := by
  have hsorted : List.insertionSort (· ≤ ·) (List.replicate n q) =
      List.replicate n q :=
    List.Sorted.insertionSort_eq (List.pairwise_replicate.mpr (Or.inr le_rfl))
  have h2 : n / 2 < n := Nat.div_lt_self (by omega) one_lt_two
  have h1 : n / 2 - 1 < n := by omega
  simp only [listMedian, hsorted, List.length_replicate]
  by_cases hpar : n % 2 = 1
  · rw [if_pos hpar, getD_replicate n (n / 2) q 0 h2]
  · rw [if_neg hpar, getD_replicate n (n / 2) q 0 h2,
      getD_replicate n (n / 2 - 1) q 0 h1]
    ring

theorem get_statistics_replicate (n : ℕ) (q : ℚ) (h : n ≠ 0) :
    get_statistics (List.replicate n (PyFloat.fin q, false)) =
      ⟨some q, some q, some q, some 0, some q, n⟩ := by
  have hempty : (List.replicate n q).isEmpty = false := by
    cases n with
    | zero => exact absurd rfl h
    | succ n => simp [List.replicate_succ]
  simp [get_statistics, validSamples_replicate_fin, hempty,
    listMin_replicate n q h, listMax_replicate n q h, listMean_replicate n q h,
    listVar_replicate n q h, listMedian_replicate n q h]

theorem count_nonzero_replicate_one (n : ℕ) :
    count_nonzero (List.replicate n 1) = n := by
  unfold count_nonzero
  induction n with
  | zero => rfl
  | succ n ih =>
      rw [List.replicate_succ, List.countP_cons, ih]
      norm_num

theorem zipWith_replicate {α β γ : Type} (f : α → β → γ) (a : α) (b : β) :
    ∀ n, List.zipWith f (List.replicate n a) (List.replicate n b) =
      List.replicate n (f a b) := by
  intro n
  induction n with
  | zero => rfl
  | succ n ih => simp [List.replicate_succ, ih]

/-- Counting after an elementwise map that can only clear samples: if
the predicate on an output sample forces it on the left input sample,
the nonzero count cannot grow. -/
theorem countP_zipWith_le (p : ℕ → Bool) (f : ℕ → Bool → ℕ)
    (hf : ∀ a b, p (f a b) = true → p a = true) :
    ∀ (ms : List ℕ) (gs : List Bool),
      (List.zipWith f ms gs).countP p ≤ ms.countP p := by
  intro ms
  induction ms with
  | nil => intro gs; simp
  | cons m ms ih =>
      intro gs
      cases gs with
      | nil => simp
      | cons g gs =>
          rw [List.zipWith_cons_cons, List.countP_cons, List.countP_cons]
          have h1 := ih gs
          have h2 : (if p (f m g) then 1 else 0) ≤ (if p m then 1 else 0) := by
            by_cases hc : p (f m g) = true
            · rw [if_pos hc, if_pos (hf m g hc)]
            · rw [if_neg hc]
              omega
          omega

/-- Pixels surviving the elementwise AND are a subset of the roof
pixels: each output sample is either 0 or the low bit of the mask
sample, so it can be nonzero only where the mask sample is. -/
theorem count_nonzero_combined_le (ms : List ℕ) (gs : List Bool) :
    count_nonzero (List.zipWith (fun mv b => if b then mv % 2 else 0) ms gs) ≤
      count_nonzero ms := by
  refine countP_zipWith_le _ _ ?_ ms gs
  intro a b h
  cases b with
  | false => simp at h
  | true =>
      simp only [decide_eq_true_eq] at h ⊢
      rw [if_pos trivial] at h
      omega

/-! Inversion lemmas: what a successful run of each stage implies. -/

theorem broadcastDims_self : ∀ l : List ℕ, broadcastDims l l = some l := by
  intro l
  induction l with
  | nil => rfl
  | cons a as ih =>
      unfold broadcastDims
      rw [ih]
      simp

theorem broadcastShapes_self (s : List ℕ) : broadcastShapes s s = some s := by
  unfold broadcastShapes
  rw [broadcastDims_self]
  simp

/-- On identical grid shapes the elementwise AND combines the samples
position by position. -/
theorem numpyAndBool_eq_shapes {m : MaskRaster} {fs : List ℕ}
    {g : List Bool} (h : m.shape = fs) :
    numpyAndBool m fs g =
      .ok (List.zipWith (fun mv b => if b then mv % 2 else 0) m.data g) := by
  unfold numpyAndBool
  rw [if_pos h]

/-- Shapes numpy cannot broadcast make the elementwise AND raise. -/
theorem numpyAndBool_not_broadcastable {m : MaskRaster} {fs : List ℕ}
    {g : List Bool} (hbc : broadcastShapes m.shape fs = none) :
    numpyAndBool m fs g =
      .error "operands could not be broadcast together" := by
  have hne : m.shape ≠ fs := by
    intro h
    rw [h, broadcastShapes_self] at hbc
    exact absurd hbc (by simp)
  unfold numpyAndBool
  rw [if_neg hne]
  simp only [hbc]

theorem flux_threshold_ok {mean : Option ℚ} {t : ℚ}
    (h : flux_threshold mean = .ok t) :
    ∃ m, mean = some m ∧ t = m * (3 / 4) := by
  cases mean with
  | none => exact absurd h (by simp [flux_threshold])
  | some m =>
      refine ⟨m, rfl, ?_⟩
      simpa [flux_threshold] using h.symm

theorem maskBranch_ok {flux : FluxRaster} {stats : Stats} {env : AnalyzeEnv}
    {areas : ℚ × ℚ × ℚ} (h : maskBranch flux stats env = .ok areas) :
    ∃ maskArr res thr combined,
      env.maskFetch = .ok (maskArr, res) ∧
      flux_threshold stats.mean = .ok thr ∧
      numpyAndBool maskArr flux.shape
        (flux.data.map (fun v => v.gtQ thr)) = .ok combined ∧
      areas = ((count_nonzero maskArr.data : ℚ) * (res.x * res.y),
        ((count_nonzero combined : ℚ) * (res.x * res.y)) * (55 / 100),
        (count_nonzero combined : ℚ) * (res.x * res.y)) := by
  unfold maskBranch at h
  split at h
  · exact absurd h (by simp)
  · rename_i md heq
    split at h
    · exact absurd h (by simp)
    · rename_i thr hthr
      split at h
      · exact absurd h (by simp)
      · rename_i combined hand
        refine ⟨md.1, md.2, thr, combined, ?_, hthr, hand, ?_⟩
        · rw [heq]
        · have := (Except.ok.injEq _ _ ▸ h)
          exact this.symm

theorem analyzeCore_ok {layers : DataLayers} {env : AnalyzeEnv}
    {r : AnalysisOk} (h : analyzeCore layers env = .ok r) :
    ∃ flux areas,
      env.fluxFetch = .ok flux ∧
      (if truthy layers.maskUrl then
        maskBranch flux (analysisStats flux) env
       else .ok ((0 : ℚ), (0 : ℚ), (0 : ℚ))) = .ok areas ∧
      r = mkAnalysisOk (analysisStats flux) areas := by
  unfold analyzeCore at h
  split at h
  · exact absurd h (by simp)
  · rename_i flux heq
    split at h
    · exact absurd h (by simp)
    · rename_i areas hareas
      exact ⟨flux, areas, heq, hareas, ((Except.ok.injEq _ _ ▸ h)).symm⟩

theorem analyze_ok {layers : DataLayers} {env : AnalyzeEnv} {r : AnalysisOk}
    (h : analyze layers env = .ok r) :
    truthy layers.annualFluxUrl = true ∧ analyzeCore layers env = .ok r := by
  unfold analyze at h
  cases hurl : truthy layers.annualFluxUrl with
  | false => rw [hurl] at h; exact absurd h (by simp)
  | true =>
      rw [hurl] at h
      simp only [Bool.not_true, Bool.false_eq_true, if_false] at h
      refine ⟨rfl, ?_⟩
      cases hc : analyzeCore layers env with
      | error e => rw [hc] at h; exact absurd h (by simp)
      | ok r2 =>
          rw [hc] at h
          have h2 := (AnalyzeResult.ok.injEq _ _ ▸ h)
          rw [h2]

/-! Forward computation lemmas: running a stage under known outcomes. -/

theorem maskBranch_eq_ok {flux : FluxRaster} {stats : Stats} {env : AnalyzeEnv}
    {maskArr : MaskRaster} {res : Resolution} {thr : ℚ} {combined : List ℕ}
    (hm : env.maskFetch = .ok (maskArr, res))
    (ht : flux_threshold stats.mean = .ok thr)
    (ha : numpyAndBool maskArr flux.shape
      (flux.data.map (fun v => v.gtQ thr)) = .ok combined) :
    maskBranch flux stats env =
      .ok ((count_nonzero maskArr.data : ℚ) * (res.x * res.y),
        ((count_nonzero combined : ℚ) * (res.x * res.y)) * (55 / 100),
        (count_nonzero combined : ℚ) * (res.x * res.y)) := by
  unfold maskBranch
  rw [hm]
  simp only [ht, ha]

theorem maskBranch_eq_error {flux : FluxRaster} {stats : Stats}
    {env : AnalyzeEnv} {maskArr : MaskRaster} {res : Resolution} {thr : ℚ}
    {e : String} (hm : env.maskFetch = .ok (maskArr, res))
    (ht : flux_threshold stats.mean = .ok thr)
    (ha : numpyAndBool maskArr flux.shape
      (flux.data.map (fun v => v.gtQ thr)) = .error e) :
    maskBranch flux stats env = .error e := by
  unfold maskBranch
  rw [hm]
  simp only [ht, ha]

theorem maskBranch_eq_error_mean {flux : FluxRaster} {stats : Stats}
    {env : AnalyzeEnv} {maskArr : MaskRaster} {res : Resolution} {e : String}
    (hm : env.maskFetch = .ok (maskArr, res))
    (ht : flux_threshold stats.mean = .error e) :
    maskBranch flux stats env = .error e := by
  unfold maskBranch
  rw [hm]
  simp only [ht]

theorem analyzeCore_eq_ok {layers : DataLayers} {env : AnalyzeEnv}
    {flux : FluxRaster} {areas : ℚ × ℚ × ℚ}
    (hf : env.fluxFetch = .ok flux)
    (hb : (if truthy layers.maskUrl then
             maskBranch flux (analysisStats flux) env
           else .ok ((0 : ℚ), (0 : ℚ), (0 : ℚ))) = .ok areas) :
    analyzeCore layers env = .ok (mkAnalysisOk (analysisStats flux) areas) := by
  unfold analyzeCore
  rw [hf]
  simp only [hb]

theorem analyzeCore_eq_error {layers : DataLayers} {env : AnalyzeEnv}
    {flux : FluxRaster} {e : String}
    (hf : env.fluxFetch = .ok flux)
    (hmask : truthy layers.maskUrl = true)
    (hb : maskBranch flux (analysisStats flux) env = .error e) :
    analyzeCore layers env = .error e := by
  unfold analyzeCore
  rw [hf]
  simp only [hmask, if_true, hb]

theorem analyze_eq_ok {layers : DataLayers} {env : AnalyzeEnv} {r : AnalysisOk}
    (hurl : truthy layers.annualFluxUrl = true)
    (hc : analyzeCore layers env = .ok r) :
    analyze layers env = .ok r := by
  unfold analyze
  rw [hurl]
  simp only [Bool.not_true, Bool.false_eq_true, if_false, hc]

theorem analyze_eq_err {layers : DataLayers} {env : AnalyzeEnv} {e : String}
    (hurl : truthy layers.annualFluxUrl = true)
    (hc : analyzeCore layers env = .error e) :
    analyze layers env =
      .err ("Failed to process solar data: " ++ e)
        "An error occurred while analyzing the solar data. Please try again." := by
  unfold analyze
  rw [hurl]
  simp only [Bool.not_true, Bool.false_eq_true, if_false, hc]

/-- When the high-resolution analysis comes back with an error field,
the selector runs the PVGIS branch instead. -/
theorem selector_falls_back_on_err {env : SelectorEnv} {layers : DataLayers}
    {em ms : String} {area : Option ℚ}
    (hg : env.googleLayers = .ok layers)
    (hurl : truthy layers.annualFluxUrl = true)
    (ha : analyze layers env.analyzeEnv = .err em ms) :
    get_solar_analysis env area = get_pvgis_analysis env area := by
  unfold get_solar_analysis
  rw [hg]
  simp only [hurl, if_true, ha]

/-! A uniform one-value instance used for concrete runs: n roof pixels
of mask value 1 at unit resolution, flux constant q on the same grid. -/

def uniformLayers : DataLayers := ⟨some "fluxUrl", some "maskUrl"⟩

def uniformEnv (n : ℕ) (q : ℚ) : AnalyzeEnv :=
  ⟨.ok ⟨[n], List.replicate n (.fin q)⟩, .ok (⟨[n], List.replicate n 1⟩, ⟨1, 1⟩)⟩

theorem analysisStats_replicate (shape : List ℕ) (n : ℕ) (hn : n ≠ 0)
    (q : ℚ) :
    analysisStats ⟨shape, List.replicate n (.fin q)⟩ =
      ⟨some q, some q, some q, some 0, some q, n⟩ := by
  unfold analysisStats
  rw [show (⟨shape, List.replicate n (.fin q)⟩ : FluxRaster).data =
    List.replicate n (.fin q) from rfl, List.map_replicate]
  exact get_statistics_replicate n q hn

theorem analysisStats_uniform (n : ℕ) (hn : n ≠ 0) (q : ℚ) :
    analysisStats ⟨[n], List.replicate n (.fin q)⟩ =
      ⟨some q, some q, some q, some 0, some q, n⟩ :=
  analysisStats_replicate [n] n hn q

def uniformResult (n : ℕ) (q : ℚ) : AnalysisOk :=
  mkAnalysisOk ⟨some q, some q, some q, some 0, some q, n⟩
    ((n : ℚ), (n : ℚ) * (55 / 100), (n : ℚ))

theorem analyze_uniform (n : ℕ) (hn : n ≠ 0) (q : ℚ) (hq : 0 < q) :
    analyze uniformLayers (uniformEnv n q) = .ok (uniformResult n q) := by
  unfold uniformResult
  have hgood : (List.replicate n (PyFloat.fin q)).map
      (fun v => v.gtQ (q * (3 / 4))) = List.replicate n true := by
    rw [List.map_replicate]
    congr 1
    simp only [PyFloat.gtQ, decide_eq_true_eq]
    linarith
  have hand : numpyAndBool ⟨[n], List.replicate n 1⟩ [n]
      ((List.replicate n (PyFloat.fin q)).map (fun v => v.gtQ (q * (3 / 4)))) =
      .ok (List.replicate n 1) := by
    rw [hgood]
    unfold numpyAndBool
    rw [if_pos rfl, zipWith_replicate]
    norm_num
  have hmb := @maskBranch_eq_ok ⟨[n], List.replicate n (.fin q)⟩
    ⟨some q, some q, some q, some 0, some q, n⟩ (uniformEnv n q)
    ⟨[n], List.replicate n 1⟩ ⟨1, 1⟩ (q * (3 / 4)) (List.replicate n 1)
    rfl rfl hand
  rw [count_nonzero_replicate_one] at hmb
  have hcore := @analyzeCore_eq_ok uniformLayers (uniformEnv n q)
    ⟨[n], List.replicate n (.fin q)⟩
    ((n : ℚ), (n : ℚ) * (55 / 100), (n : ℚ)) rfl
    (by
      rw [if_pos (show truthy uniformLayers.maskUrl = true from rfl),
        analysisStats_uniform n hn q, hmb]
      norm_num)
  rw [analysisStats_uniform n hn q] at hcore
  exact analyze_eq_ok rfl hcore

/-! Cache behaviour of download_geotiff under known cache contents. -/

theorem cacheLookup_insert (cache : List (String × List ℕ)) (k : String)
    (b : List ℕ) : cacheLookup (cacheInsert cache k b) k = some b := by
  simp [cacheLookup, cacheInsert, List.find?_cons_of_pos]

theorem download_hit {cache : List (String × List ℕ)}
    {net : String → Except String (List ℕ)} {url : String}
    {ck : Option String} {api : Option String} {b : List ℕ}
    (htr : truthy ck = true) (hl : cacheLookup cache (ck.getD "") = some b) :
    download_geotiff cache net url ck api = ⟨.ok b, cache, 0⟩ := by
  unfold download_geotiff
  simp only [htr, if_true, hl]

theorem download_miss_ok {cache : List (String × List ℕ)}
    {net : String → Except String (List ℕ)} {url : String}
    {ck : Option String} {api : Option String} {b : List ℕ}
    (htr : truthy ck = true) (hl : cacheLookup cache (ck.getD "") = none)
    (hn : net (withApiKey url api) = .ok b) :
    download_geotiff cache net url ck api =
      ⟨.ok b, cacheInsert cache (ck.getD "") b, 1⟩ := by
  unfold download_geotiff
  simp only [htr, if_true, hl, hn]

theorem download_miss_err {cache : List (String × List ℕ)}
    {net : String → Except String (List ℕ)} {url : String}
    {ck : Option String} {api : Option String} {e : String}
    (htr : truthy ck = true) (hl : cacheLookup cache (ck.getD "") = none)
    (hn : net (withApiKey url api) = .error e) :
    download_geotiff cache net url ck api = ⟨.error e, cache, 1⟩ := by
  unfold download_geotiff
  simp only [htr, if_true, hl, hn]

/-! Claim theorems. -/

/-- C1: in the high-resolution path, every successful analysis computes
capacity first as usable area over 5.5 and then annual energy as
capacity times mean flux times the performance ratio 0.82 applied
exactly once, with no separate panel-efficiency factor (the usable area
is nonnegative in every real raster run since pixel sizes are
nonnegative; the hypothesis makes that explicit). -/
theorem C1_capacity_energy_model (layers : DataLayers) (env : AnalyzeEnv)
    (r : AnalysisOk) (h : analyze layers env = .ok r)
    (hnn : 0 ≤ r.usable_roof_area_sq_meters) :
    r.estimated_capacity_kwp = r.usable_roof_area_sq_meters / (11 / 2) ∧
    r.estimated_annual_energy_kwh =
      r.estimated_capacity_kwp * (r.flux_stats.mean.getD 0) * (82 / 100) := by
  obtain ⟨-, hc⟩ := analyze_ok h
  obtain ⟨flux, areas, -, -, hr⟩ := analyzeCore_ok hc
  subst hr
  simp only [mkAnalysisOk] at hnn ⊢
  refine ⟨?_, rfl⟩
  unfold capacity_kwp area_per_kwp
  split_ifs with hpos
  · rfl
  · have hz : areas.2.1 = 0 := le_antisymm (not_lt.mp hpos) hnn
    rw [hz]
    norm_num

/-- Witness for C1 at the one-pixel uniform instance. -/
theorem C1_capacity_energy_model_witness :
    analyze uniformLayers (uniformEnv 1 1000) = .ok (uniformResult 1 1000) ∧
    0 ≤ (uniformResult 1 1000).usable_roof_area_sq_meters ∧
    ((uniformResult 1 1000).estimated_capacity_kwp =
      (uniformResult 1 1000).usable_roof_area_sq_meters / (11 / 2) ∧
    (uniformResult 1 1000).estimated_annual_energy_kwh =
      (uniformResult 1 1000).estimated_capacity_kwp *
        ((uniformResult 1 1000).flux_stats.mean.getD 0) * (82 / 100)) :=
  have h := analyze_uniform 1 one_ne_zero 1000 (by norm_num)
  have hnn : 0 ≤ (uniformResult 1 1000).usable_roof_area_sq_meters := by
    norm_num [uniformResult, mkAnalysisOk]
  ⟨h, hnn, C1_capacity_energy_model uniformLayers (uniformEnv 1 1000) _ h hnn⟩

/-- C2: every successful analysis reports
practically usable ≤ theoretically usable ≤ total roof area, provided
each decoded mask resolution has nonnegative pixel area (true of every
real raster, whose pixel sizes are positive) and the mask and flux
rasters share the grid shape (the pair precondition of the spec,
guaranteed by fetching both layers from the same provider response). -/
theorem C2_area_monotonic (layers : DataLayers) (env : AnalyzeEnv)
    (r : AnalysisOk) (h : analyze layers env = .ok r)
    (hres : ∀ maskArr res, env.maskFetch = .ok (maskArr, res) →
      0 ≤ res.x * res.y)
    (hgrid : ∀ maskArr res flux, env.maskFetch = .ok (maskArr, res) →
      env.fluxFetch = .ok flux → maskArr.shape = flux.shape) :
    r.practical_usable_area_m2 ≤ r.theoretically_usable_area_m2 ∧
    r.theoretically_usable_area_m2 ≤ r.total_roof_area_m2 := by
  obtain ⟨-, hc⟩ := analyze_ok h
  obtain ⟨flux, areas, hfx, hb, hr⟩ := analyzeCore_ok hc
  subst hr
  simp only [mkAnalysisOk]
  by_cases hmask : truthy layers.maskUrl = true
  · rw [if_pos hmask] at hb
    obtain ⟨maskArr, res, thr, combined, hm, -, hand, hareas⟩ := maskBranch_ok hb
    have hz := @numpyAndBool_eq_shapes maskArr flux.shape
      (flux.data.map (fun v => v.gtQ thr)) (hgrid maskArr res flux hm hfx)
    rw [hand] at hz
    have hcomb : combined = List.zipWith (fun mv b => if b then mv % 2 else 0)
        maskArr.data (flux.data.map (fun v => v.gtQ thr)) := by
      have h2 := (Except.ok.injEq _ _ ▸ hz)
      exact h2
    have hcount : count_nonzero combined ≤ count_nonzero maskArr.data := by
      rw [hcomb]
      exact count_nonzero_combined_le _ _
    have hpa : 0 ≤ res.x * res.y := hres maskArr res hm
    subst hareas
    simp only
    have hucrc : (count_nonzero combined : ℚ) ≤ (count_nonzero maskArr.data : ℚ) := by
      exact_mod_cast hcount
    have huc0 : (0 : ℚ) ≤ (count_nonzero combined : ℚ) := Nat.cast_nonneg _
    have hrc0 : (0 : ℚ) ≤ (count_nonzero maskArr.data : ℚ) := Nat.cast_nonneg _
    constructor
    · by_cases hpos :
        (count_nonzero combined : ℚ) * (res.x * res.y) * (55 / 100) > 0
      · rw [if_pos hpos]
        have hup : (0 : ℚ) < (count_nonzero combined : ℚ) * (res.x * res.y) := by
          linarith
        linarith
      · rw [if_neg hpos]
        linarith [not_lt.mp hpos]
    · by_cases hpos :
        (count_nonzero combined : ℚ) * (res.x * res.y) * (55 / 100) > 0
      · rw [if_pos hpos]
        exact mul_le_mul_of_nonneg_right hucrc hpa
      · rw [if_neg hpos]
        exact mul_nonneg hrc0 hpa
  · rw [if_neg hmask] at hb
    have hz : areas = ((0 : ℚ), (0 : ℚ), (0 : ℚ)) := by
      have := (Except.ok.injEq _ _ ▸ hb)
      exact this.symm
    subst hz
    norm_num

/-- Witness for C2 at the one-pixel uniform instance. -/
theorem C2_area_monotonic_witness :
    analyze uniformLayers (uniformEnv 1 1000) = .ok (uniformResult 1 1000) ∧
    ((uniformResult 1 1000).practical_usable_area_m2 ≤
      (uniformResult 1 1000).theoretically_usable_area_m2 ∧
    (uniformResult 1 1000).theoretically_usable_area_m2 ≤
      (uniformResult 1 1000).total_roof_area_m2) :=
  have h := analyze_uniform 1 one_ne_zero 1000 (by norm_num)
  ⟨h, C2_area_monotonic uniformLayers (uniformEnv 1 1000) _ h
    (by
      intro maskArr res hm
      cases hm
      norm_num)
    (by
      intro maskArr res flux hm hf
      cases hm
      cases hf
      rfl)⟩

/-- C7: when the mask layer is absent the analysis still succeeds with
all three area fields, capacity and energy equal to 0; and the capacity
and energy formulas are total with a non-positive usable area giving
zero capacity and zero energy. -/
theorem C7_absent_mask_and_zero_totality :
    (∀ (layers : DataLayers) (env : AnalyzeEnv) (flux : FluxRaster),
      truthy layers.annualFluxUrl = true →
      layers.maskUrl = none →
      env.fluxFetch = .ok flux →
      analyze layers env =
        .ok (mkAnalysisOk (analysisStats flux) ((0 : ℚ), (0 : ℚ), (0 : ℚ))) ∧
      (mkAnalysisOk (analysisStats flux)
        ((0 : ℚ), (0 : ℚ), (0 : ℚ))).estimated_roof_area_sq_meters = 0 ∧
      (mkAnalysisOk (analysisStats flux)
        ((0 : ℚ), (0 : ℚ), (0 : ℚ))).total_roof_area_m2 = 0 ∧
      (mkAnalysisOk (analysisStats flux)
        ((0 : ℚ), (0 : ℚ), (0 : ℚ))).theoretically_usable_area_m2 = 0 ∧
      (mkAnalysisOk (analysisStats flux)
        ((0 : ℚ), (0 : ℚ), (0 : ℚ))).practical_usable_area_m2 = 0 ∧
      (mkAnalysisOk (analysisStats flux)
        ((0 : ℚ), (0 : ℚ), (0 : ℚ))).usable_roof_area_sq_meters = 0 ∧
      (mkAnalysisOk (analysisStats flux)
        ((0 : ℚ), (0 : ℚ), (0 : ℚ))).estimated_capacity_kwp = 0 ∧
      (mkAnalysisOk (analysisStats flux)
        ((0 : ℚ), (0 : ℚ), (0 : ℚ))).estimated_annual_energy_kwh = 0) ∧
    (∀ a m : ℚ, a ≤ 0 →
      capacity_kwp a area_per_kwp = 0 ∧
      annual_energy_kwh (capacity_kwp a area_per_kwp) m performance_ratio = 0) := by
  constructor
  · intro layers env flux hurl hmask hf
    have hcap : capacity_kwp (0 : ℚ) area_per_kwp = 0 := by
      unfold capacity_kwp
      norm_num
    refine ⟨?_, ?_⟩
    · refine analyze_eq_ok hurl (analyzeCore_eq_ok hf ?_)
      rw [if_neg]
      rw [hmask]
      simp [truthy]
    · simp [mkAnalysisOk, hcap, annual_energy_kwh]
  · intro a m ha
    have hcap : capacity_kwp a area_per_kwp = 0 := by
      unfold capacity_kwp
      rw [if_neg (not_lt.mpr ha)]
    exact ⟨hcap, by rw [hcap]; simp [annual_energy_kwh]⟩

/-- Witness for C7: a one-pixel flux layer with no mask layer, and the
zero-area boundary of the capacity and energy formulas. -/
theorem C7_absent_mask_and_zero_totality_witness :
    (analyze ⟨some "fluxUrl", none⟩
        ⟨.ok ⟨[1], [.fin 5]⟩, .ok (⟨[1], [1]⟩, ⟨1, 1⟩)⟩ =
      .ok (mkAnalysisOk (analysisStats ⟨[1], [.fin 5]⟩)
        ((0 : ℚ), (0 : ℚ), (0 : ℚ))) ∧
     (mkAnalysisOk (analysisStats ⟨[1], [.fin 5]⟩)
        ((0 : ℚ), (0 : ℚ), (0 : ℚ))).estimated_capacity_kwp = 0) ∧
    (capacity_kwp 0 area_per_kwp = 0 ∧
     annual_energy_kwh (capacity_kwp 0 area_per_kwp) 3 performance_ratio = 0) :=
  have h1 := C7_absent_mask_and_zero_totality.1 ⟨some "fluxUrl", none⟩
    ⟨.ok ⟨[1], [.fin 5]⟩, .ok (⟨[1], [1]⟩, ⟨1, 1⟩)⟩ ⟨[1], [.fin 5]⟩ rfl rfl rfl
  ⟨⟨h1.1, h1.2.2.2.2.2.2.1⟩, C7_absent_mask_and_zero_totality.2 0 3 le_rfl⟩

/-- C6: the statistics routine is total; it reports the valid-sample
count, returns the all-null record when no valid sample remains, and
returns every scalar field populated otherwise. -/
theorem C6_statistics_never_fails (arr : List (PyFloat × Bool)) :
    (get_statistics arr).count = (validSamples arr).length ∧
    ((validSamples arr).length = 0 →
      get_statistics arr = ⟨none, none, none, none, none, 0⟩) ∧
    ((validSamples arr).length ≠ 0 →
      ∃ a b c d e, get_statistics arr =
        ⟨some a, some b, some c, some d, some e, (validSamples arr).length⟩) := by
  cases hv : validSamples arr with
  | nil => simp [get_statistics, hv]
  | cons x xs =>
      refine ⟨?_, ?_, ?_⟩
      · simp [get_statistics, hv]
      · intro h0
        simp at h0
      · intro hne
        exact ⟨xs.foldl min x, xs.foldl max x, listMean (x :: xs),
          listVar (x :: xs), listMedian (x :: xs),
          by simp [get_statistics, hv, listMin, listMax]⟩

/-- Witness for C6: an all-NaN sample gives the null record, and a
mixed finite/non-finite sample reports the valid count. -/
theorem C6_statistics_never_fails_witness :
    get_statistics [(PyFloat.nan, false)] = ⟨none, none, none, none, none, 0⟩ ∧
    (get_statistics [(PyFloat.fin 4, false), (PyFloat.inf true, false)]).count =
      (validSamples [(PyFloat.fin 4, false), (PyFloat.inf true, false)]).length :=
  ⟨(C6_statistics_never_fails [(PyFloat.nan, false)]).2.1 rfl,
   (C6_statistics_never_fails [(PyFloat.fin 4, false), (PyFloat.inf true, false)]).1⟩

/-- The three recoverable ways the high-resolution branch can fail: the
provider call raises, the response has no truthy flux-layer url, or the
raster analysis comes back with an error field. -/
def googleFailed (env : SelectorEnv) : Prop :=
  (∃ e, env.googleLayers = .error e) ∨
  (∃ layers, env.googleLayers = .ok layers ∧
    truthy layers.annualFluxUrl = false) ∨
  (∃ layers em ms, env.googleLayers = .ok layers ∧
    truthy layers.annualFluxUrl = true ∧
    analyze layers env.analyzeEnv = .err em ms)

theorem get_pvgis_analysis_error {env : SelectorEnv} {area : Option ℚ}
    {e : String} (h : get_pvgis_analysis env area = .error e) :
    ∃ pe, env.pvgisFetch = .error pe := by
  unfold get_pvgis_analysis at h
  cases hp : env.pvgisFetch with
  | error pe => exact ⟨pe, rfl⟩
  | ok d =>
      rw [hp] at h
      exact absurd h (by simp)

/-- C5: the selector falls back to the modeled provider whenever the
high-resolution path fails in any of its three ways, and an error
reaches the caller only when the high-resolution path failed and the
modeled provider raised as well. -/
theorem C5_fallback_policy (env : SelectorEnv) (area : Option ℚ) :
    (googleFailed env →
      get_solar_analysis env area = get_pvgis_analysis env area) ∧
    (∀ e, get_solar_analysis env area = .error e →
      googleFailed env ∧ ∃ pe, env.pvgisFetch = .error pe) := by
  constructor
  · intro hfail
    rcases hfail with ⟨e, he⟩ | ⟨layers, hl, hurl⟩ | ⟨layers, em, ms, hl, hurl, ha⟩
    · unfold get_solar_analysis
      rw [he]
    · unfold get_solar_analysis
      rw [hl]
      simp only [hurl, Bool.false_eq_true, if_false]
    · exact selector_falls_back_on_err hl hurl ha
  · intro e he
    cases hg : env.googleLayers with
    | error ge =>
        have heq : get_solar_analysis env area = get_pvgis_analysis env area := by
          unfold get_solar_analysis
          rw [hg]
        rw [heq] at he
        exact ⟨Or.inl ⟨ge, hg⟩, get_pvgis_analysis_error he⟩
    | ok layers =>
        cases hurl : truthy layers.annualFluxUrl with
        | false =>
            have heq : get_solar_analysis env area = get_pvgis_analysis env area := by
              unfold get_solar_analysis
              rw [hg]
              simp only [hurl, Bool.false_eq_true, if_false]
            rw [heq] at he
            exact ⟨Or.inr (Or.inl ⟨layers, hg, hurl⟩), get_pvgis_analysis_error he⟩
        | true =>
            cases ha : analyze layers env.analyzeEnv with
            | ok r =>
                have heq : get_solar_analysis env area = .ok (.googleResult r) := by
                  unfold get_solar_analysis
                  rw [hg]
                  simp only [hurl, if_true, ha]
                rw [heq] at he
                exact absurd he (by simp)
            | err em ms =>
                have heq := @selector_falls_back_on_err env layers em ms area hg hurl ha
                rw [heq] at he
                exact ⟨Or.inr (Or.inr ⟨layers, em, ms, hg, hurl, ha⟩),
                  get_pvgis_analysis_error he⟩

/-- A selector run in which both providers raise. -/
def C5env : SelectorEnv :=
  ⟨.error "google api unavailable",
   ⟨.ok ⟨[1], [.fin 5]⟩, .ok (⟨[1], [1]⟩, ⟨1, 1⟩)⟩,
   .error "pvgis unreachable"⟩

/-- Witness for C5: with the high-resolution provider down the selector
runs the PVGIS branch, and the error that reaches the caller coincides
with the PVGIS failure. -/
theorem C5_fallback_policy_witness :
    get_solar_analysis C5env none = get_pvgis_analysis C5env none ∧
    C5env.pvgisFetch = .error "pvgis unreachable" :=
  ⟨(C5_fallback_policy C5env none).1 (Or.inl ⟨"google api unavailable", rfl⟩),
   rfl⟩

/-- C10: when the mask layer is present but the flux raster has no
valid sample, the stats mean is null, the threshold computation raises,
the catch-all converts this into the error result - never a zero-valued
success - and the selector turns that into the modeled fallback. -/
theorem C10_null_mean_error_fallback (layers : DataLayers) (env : AnalyzeEnv)
    (flux : FluxRaster) (maskArr : MaskRaster) (res : Resolution)
    (hurl : truthy layers.annualFluxUrl = true)
    (hmask : truthy layers.maskUrl = true)
    (hf : env.fluxFetch = .ok flux)
    (hm : env.maskFetch = .ok (maskArr, res))
    (hvalid : validSamples (flux.data.map (fun v => (v, false))) = []) :
    (analysisStats flux).mean = none ∧
    analyze layers env =
      .err ("Failed to process solar data: " ++
          "unsupported operand type for *: NoneType and float")
        "An error occurred while analyzing the solar data. Please try again." ∧
    (∀ (selEnv : SelectorEnv) (area : Option ℚ),
      selEnv.googleLayers = .ok layers → selEnv.analyzeEnv = env →
      get_solar_analysis selEnv area = get_pvgis_analysis selEnv area) := by
  have hstats : analysisStats flux = ⟨none, none, none, none, none, 0⟩ := by
    simp [analysisStats, get_statistics, hvalid]
  have hthr : flux_threshold (analysisStats flux).mean =
      .error "unsupported operand type for *: NoneType and float" := by
    rw [hstats]
    rfl
  have herr := analyze_eq_err hurl
    (analyzeCore_eq_error hf hmask (maskBranch_eq_error_mean hm hthr))
  refine ⟨by rw [hstats], herr, ?_⟩
  intro selEnv area hg henv
  exact selector_falls_back_on_err hg hurl (henv ▸ herr)

/-- An analysis run whose flux raster is a single NaN pixel while the
mask layer is present. -/
def C10layers : DataLayers := ⟨some "fluxUrl", some "maskUrl"⟩

def C10env : AnalyzeEnv := ⟨.ok ⟨[1], [.nan]⟩, .ok (⟨[1], [1]⟩, ⟨1, 1⟩)⟩

def C10selEnv : SelectorEnv := ⟨.ok C10layers, C10env, .ok ⟨some 950⟩⟩

/-- Witness for C10 at the concrete all-NaN flux raster. -/
theorem C10_null_mean_error_fallback_witness :
    (analysisStats ⟨[1], [.nan]⟩).mean = none ∧
    analyze C10layers C10env =
      .err ("Failed to process solar data: " ++
          "unsupported operand type for *: NoneType and float")
        "An error occurred while analyzing the solar data. Please try again." ∧
    get_solar_analysis C10selEnv none = get_pvgis_analysis C10selEnv none :=
  have h := C10_null_mean_error_fallback C10layers C10env ⟨[1], [.nan]⟩
    ⟨[1], [1]⟩ ⟨1, 1⟩ rfl rfl rfl rfl rfl
  ⟨h.1, h.2.1, h.2.2 C10selEnv none rfl rfl⟩

/-- A selector run that reaches the PVGIS branch with a per-kWp yield
of 1000 and no caller-supplied roof area. -/
def C3env : SelectorEnv :=
  ⟨.error "no imagery", ⟨.error "unused", .error "unused"⟩, .ok ⟨some 1000⟩⟩

/-- C3 counterexample: with the default 100 square meter roof the
fallback computes capacity 10 kWp, that is usable area 55 over the
primary-path constant 5.5 - not 55 over the claimed distinct fallback
constant 6.5, which would give 110/13. -/
theorem C3_counterexample :
    get_pvgis_analysis C3env none =
      .ok (.pvgisResult ⟨100, 55, 10, 8200⟩) ∧
    ¬((10 : ℚ) = (100 * (55 / 100)) / (13 / 2)) := by
  constructor
  · unfold get_pvgis_analysis C3env
    norm_num [pvgis_area_per_kwp, pvgis_performance_ratio, default_roof_area]
  · norm_num

/-- C3 amended: with no caller-supplied roof area the fallback assumes
the default 100 square meter roof, applies the 0.55 usability factor,
sizes capacity with the same 5.5 area-per-kWp constant as the
primary path (not a distinct 6.5), and applies the 0.82 performance
ratio exactly once over the direct per-kWp yield. -/
theorem C3_fallback_default_area (env : SelectorEnv) (d : PvgisData)
    (hp : env.pvgisFetch = .ok d) :
    get_pvgis_analysis env none =
      .ok (.pvgisResult
        ⟨100, 100 * (55 / 100), (100 * (55 / 100)) / (11 / 2),
         (d.annual_pv_energy_per_kwp.getD 0) *
           ((100 * (55 / 100)) / (11 / 2)) * (82 / 100)⟩) := by
  unfold get_pvgis_analysis
  rw [hp]
  norm_num [default_roof_area, pvgis_area_per_kwp, pvgis_performance_ratio]

/-- Witness for the amended C3 at the concrete PVGIS yield 1000. -/
theorem C3_fallback_default_area_witness :
    get_pvgis_analysis C3env none =
      .ok (.pvgisResult
        ⟨100, 100 * (55 / 100), (100 * (55 / 100)) / (11 / 2),
         (((⟨some 1000⟩ : PvgisData).annual_pv_energy_per_kwp.getD 0)) *
           ((100 * (55 / 100)) / (11 / 2)) * (82 / 100)⟩) :=
  C3_fallback_default_area C3env ⟨some 1000⟩ rfl

/-- A concrete mismatched pair: a two-pixel flux raster against a
three-pixel mask raster. -/
def C8layers : DataLayers := ⟨some "fluxUrl", some "maskUrl"⟩

def C8flux : FluxRaster := ⟨[2], [.fin 10, .fin 20]⟩

def C8mask : MaskRaster := ⟨[3], [1, 1, 1]⟩

def C8env : AnalyzeEnv := ⟨.ok C8flux, .ok (C8mask, ⟨1, 1⟩)⟩

def C8selEnv : SelectorEnv := ⟨.ok C8layers, C8env, .ok ⟨some 900⟩⟩

/-- A broadcastable mismatched pair: a one-row mask of shape (1, 2)
against a three-row flux raster of shape (3, 2); numpy stretches the
mask over the three rows instead of raising. -/
def C8bmask : MaskRaster := ⟨[1, 2], [1, 1]⟩

def C8bflux : FluxRaster := ⟨[3, 2], List.replicate 6 (.fin 1000)⟩

def C8benv : AnalyzeEnv := ⟨.ok C8bflux, .ok (C8bmask, ⟨1, 1⟩)⟩

def C8bstats : Stats := ⟨some 1000, some 1000, some 1000, some 0, some 1000, 6⟩

/-- The analysis result of the broadcastable mismatch: 2 roof pixels
but 6 combined pixels, so the reported theoretical area (6) exceeds the
total roof area (2). -/
def C8bresult : AnalysisOk := mkAnalysisOk C8bstats (2, 33 / 10, 6)

theorem analyze_C8broadcast : analyze C8layers C8benv = .ok C8bresult := by
  have hstats : analysisStats C8bflux = C8bstats :=
    analysisStats_replicate [3, 2] 6 (by norm_num) 1000
  have hgood : C8bflux.data.map (fun v => v.gtQ (1000 * (3 / 4))) =
      List.replicate 6 true := by
    rw [show C8bflux.data = List.replicate 6 (PyFloat.fin 1000) from rfl,
      List.map_replicate]
    congr 1
    simp only [PyFloat.gtQ, decide_eq_true_eq]
    norm_num
  have hand : numpyAndBool C8bmask C8bflux.shape (List.replicate 6 true) =
      .ok (List.replicate 6 1) := rfl
  have hmb := @maskBranch_eq_ok C8bflux C8bstats C8benv C8bmask ⟨1, 1⟩
    (1000 * (3 / 4)) (List.replicate 6 1) rfl rfl
    (by rw [hgood]; exact hand)
  rw [show C8bmask.data = List.replicate 2 1 from rfl] at hmb
  simp only [count_nonzero_replicate_one] at hmb
  have hcore := @analyzeCore_eq_ok C8layers C8benv C8bflux
    ((2 : ℚ), (33 / 10 : ℚ), (6 : ℚ)) rfl
    (by
      rw [if_pos (show truthy C8layers.maskUrl = true from rfl), hstats, hmb]
      norm_num)
  have hfin :=
    analyze_eq_ok (show truthy C8layers.annualFluxUrl = true from rfl) hcore
  rw [hstats] at hfin
  exact hfin

theorem C8bresult_inflated :
    C8bresult.theoretically_usable_area_m2 > C8bresult.total_roof_area_m2 := by
  show (if (33 / 10 : ℚ) > 0 then (6 : ℚ) else 0) > 2
  rw [if_pos (by norm_num)]
  norm_num

/-- C8 counterexample: mismatched shapes do not fail loudly.  The
broadcastable mismatch (mask (1,2) against flux (3,2)) is silently
stretched and the analysis succeeds with a theoretical area larger than
the total roof area - silently wrong area numbers - while the
non-broadcastable mismatch ((3,) against (2,)) raises, is caught by the
catch-all except of analyze and is returned as an error result, which
the selector then converts into the modeled fallback - a recoverable
condition. -/
theorem C8_counterexample :
    (analyze C8layers C8benv = .ok C8bresult ∧
     C8bresult.theoretically_usable_area_m2 > C8bresult.total_roof_area_m2) ∧
    (analyze C8layers C8env =
      .err ("Failed to process solar data: " ++
          "operands could not be broadcast together")
        "An error occurred while analyzing the solar data. Please try again." ∧
    get_solar_analysis C8selEnv none = get_pvgis_analysis C8selEnv none) := by
  have hthr : flux_threshold (analysisStats C8flux).mean =
      .ok (listMean [(10 : ℚ), 20] * (3 / 4)) := rfl
  have hand : numpyAndBool C8mask C8flux.shape
      (C8flux.data.map (fun v => v.gtQ (listMean [(10 : ℚ), 20] * (3 / 4)))) =
      .error "operands could not be broadcast together" := rfl
  have herr := @analyze_eq_err C8layers C8env
    "operands could not be broadcast together" rfl
    (analyzeCore_eq_error rfl rfl (maskBranch_eq_error rfl hthr hand))
  exact ⟨⟨analyze_C8broadcast, C8bresult_inflated⟩,
    herr, selector_falls_back_on_err rfl rfl herr⟩

/-- C8 amended: mismatched mask/flux grid shapes never fail loudly as
a precondition violation.  Shapes numpy cannot broadcast raise inside
the try block, but the exception is caught by the catch-all of analyze
and returned as an error result, which the selector treats as
recoverable by falling back to the modeled provider; and shapes that
broadcast through size-one axes are combined silently, so the analysis
succeeds with wrong (inflated) area numbers, as the concrete (1,2)
mask against (3,2) flux run shows. -/
theorem C8_mismatch_caught_and_recovered :
    (∀ (layers : DataLayers) (env : AnalyzeEnv) (flux : FluxRaster)
        (maskArr : MaskRaster) (res : Resolution) (m : ℚ),
      truthy layers.annualFluxUrl = true →
      truthy layers.maskUrl = true →
      env.fluxFetch = .ok flux →
      env.maskFetch = .ok (maskArr, res) →
      (analysisStats flux).mean = some m →
      broadcastShapes maskArr.shape flux.shape = none →
      analyze layers env =
        .err ("Failed to process solar data: " ++
            "operands could not be broadcast together")
          "An error occurred while analyzing the solar data. Please try again." ∧
      (∀ (selEnv : SelectorEnv) (area : Option ℚ),
        selEnv.googleLayers = .ok layers → selEnv.analyzeEnv = env →
        get_solar_analysis selEnv area = get_pvgis_analysis selEnv area)) ∧
    (analyze C8layers C8benv = .ok C8bresult ∧
     C8bresult.theoretically_usable_area_m2 >
       C8bresult.total_roof_area_m2) := by
  constructor
  · intro layers env flux maskArr res m hurl hmask hf hm hmean hbc
    have hand : numpyAndBool maskArr flux.shape
        (flux.data.map (fun v => v.gtQ (m * (3 / 4)))) =
        .error "operands could not be broadcast together" :=
      numpyAndBool_not_broadcastable hbc
    have hthr : flux_threshold (analysisStats flux).mean =
        .ok (m * (3 / 4)) := by
      rw [hmean]
      rfl
    have herr := analyze_eq_err hurl
      (analyzeCore_eq_error hf hmask (maskBranch_eq_error hm hthr hand))
    exact ⟨herr, fun selEnv area hg henv =>
      selector_falls_back_on_err hg hurl (henv ▸ herr)⟩
  · exact ⟨analyze_C8broadcast, C8bresult_inflated⟩

/-- Witness for the amended C8: the non-broadcastable conjunct at the
concrete (3,) mask against (2,) flux pair, and the broadcastable
conjunct, which is already concrete. -/
theorem C8_mismatch_caught_and_recovered_witness :
    (analyze C8layers C8env =
      .err ("Failed to process solar data: " ++
          "operands could not be broadcast together")
        "An error occurred while analyzing the solar data. Please try again." ∧
    get_solar_analysis C8selEnv none = get_pvgis_analysis C8selEnv none) ∧
    (analyze C8layers C8benv = .ok C8bresult ∧
     C8bresult.theoretically_usable_area_m2 >
       C8bresult.total_roof_area_m2) :=
  have h := C8_mismatch_caught_and_recovered
  have h1 := h.1 C8layers C8env C8flux C8mask ⟨1, 1⟩
    (listMean [(10 : ℚ), 20]) rfl rfl rfl rfl rfl rfl
  ⟨⟨h1.1, h1.2 C8selEnv none rfl rfl⟩, h.2⟩

/-- A network that always succeeds with the bytes [7, 7]. -/
def C9net : String → Except String (List ℕ) := fun _ => .ok [7, 7]

/-- C9 counterexample: the empty string is a cache_key for which two
fetch calls both hit the network - Python's if cache_key treats the
empty string as no key at all, so nothing is ever read from or written
to the cache. -/
theorem C9_counterexample :
    (download_geotiff [] C9net "url" (some "") none).requests = 1 ∧
    (download_geotiff (download_geotiff [] C9net "url" (some "") none).cache
        C9net "url" (some "") none).requests = 1 ∧
    (download_geotiff [] C9net "url" (some "") none).cache = [] := by
  exact ⟨rfl, rfl, rfl⟩

/-- C9 amended: for every nonempty cache key, a successful fetch issues
at most one network request and leaves the bytes stored under the key,
and a subsequent fetch with the same key returns those byte-identical
contents from the cache with no network request and no cache change. -/
theorem C9_cache_single_request (cache : List (String × List ℕ))
    (net : String → Except String (List ℕ)) (url1 url2 : String) (k : String)
    (api : Option String) (b : List ℕ) (o1 : Except String (List ℕ))
    (st1 : List (String × List ℕ)) (n1 : ℕ)
    (hk : k ≠ "")
    (hF : download_geotiff cache net url1 (some k) api = ⟨o1, st1, n1⟩)
    (ho : o1 = .ok b) :
    n1 ≤ 1 ∧
    cacheLookup st1 k = some b ∧
    download_geotiff st1 net url2 (some k) api = ⟨.ok b, st1, 0⟩ := by
  subst ho
  have htr : truthy (some k) = true := by
    simp [truthy, hk]
  have hgetD : (some k).getD "" = k := rfl
  cases hl : cacheLookup cache k with
  | some b0 =>
      have hH := @download_hit cache net url1 (some k) api b0 htr
        (by rw [hgetD, hl])
      rw [hF] at hH
      have h1 : Except.ok b0 = Except.ok b := congrArg FetchResult.outcome hH.symm
      have h2 : cache = st1 := congrArg FetchResult.cache hH.symm
      have h3 : (0 : ℕ) = n1 := congrArg FetchResult.requests hH.symm
      have hb : b0 = b := by
        have := (Except.ok.injEq _ _ ▸ h1)
        exact this
      subst hb
      subst h2
      refine ⟨by omega, by rw [hl], ?_⟩
      exact download_hit htr (by rw [hgetD, hl])
  | none =>
      cases hn : net (withApiKey url1 api) with
      | error e =>
          have hH := @download_miss_err cache net url1 (some k) api e htr
            (by rw [hgetD, hl]) hn
          rw [hF] at hH
          have h1 : Except.error e = Except.ok b :=
            congrArg FetchResult.outcome hH.symm
          exact absurd h1 (by simp)
      | ok b1 =>
          have hH := @download_miss_ok cache net url1 (some k) api b1 htr
            (by rw [hgetD, hl]) hn
          rw [hF] at hH
          have h1 : Except.ok b1 = Except.ok b :=
            congrArg FetchResult.outcome hH.symm
          have h2 : cacheInsert cache ((some k).getD "") b1 = st1 :=
            congrArg FetchResult.cache hH.symm
          have h3 : (1 : ℕ) = n1 := congrArg FetchResult.requests hH.symm
          have hb : b1 = b := by
            have := (Except.ok.injEq _ _ ▸ h1)
            exact this
          subst hb
          rw [hgetD] at h2
          subst h2
          refine ⟨by omega, cacheLookup_insert cache k b1, ?_⟩
          exact download_hit htr
            (by rw [hgetD]; exact cacheLookup_insert cache k b1)

/-- Witness for the amended C9 at a concrete run: empty cache, key
"key", bytes [3, 4]. -/
theorem C9_cache_single_request_witness :
    (1 : ℕ) ≤ 1 ∧
    cacheLookup [("key", [3, 4])] "key" = some [3, 4] ∧
    download_geotiff [("key", [3, 4])] (fun _ => .ok [3, 4]) "url2"
        (some "key") none = ⟨.ok [3, 4], [("key", [3, 4])], 0⟩ :=
  C9_cache_single_request [] (fun _ => .ok [3, 4]) "url1" "url2" "key"
    none [3, 4] (.ok [3, 4]) [("key", [3, 4])] 1 (by decide) rfl rfl

/-- C4: every successful mask-branch analysis follows the specified
algorithm - threshold at 75 percent of the flux mean, strictly-greater
good-flux mask, elementwise AND with the roof mask, pixel area from the
resolution, and the 0.55 practical factor - and the illustrative
scenario of 1000 roof pixels at unit pixel area with constant flux 1000
yields total 1000, theoretical 1000, practical 550, capacity 100 and
annual energy 82000. -/
theorem C4_area_estimator_algorithm :
    (∀ (layers : DataLayers) (env : AnalyzeEnv) (r : AnalysisOk)
        (flux : FluxRaster) (maskArr : MaskRaster) (res : Resolution),
      analyze layers env = .ok r →
      truthy layers.maskUrl = true →
      env.fluxFetch = .ok flux →
      env.maskFetch = .ok (maskArr, res) →
      maskArr.shape = flux.shape →
      r.flux_stats.mean ≠ none ∧
      maskArr.shape = flux.shape ∧
      r.total_roof_area_m2 =
        (count_nonzero maskArr.data : ℚ) * (res.x * res.y) ∧
      r.practical_usable_area_m2 =
        ((count_nonzero (List.zipWith (fun mv b => if b then mv % 2 else 0)
            maskArr.data
            (flux.data.map (fun v =>
              v.gtQ ((r.flux_stats.mean.getD 0) * (3 / 4))))) : ℚ) *
          (res.x * res.y)) * (55 / 100) ∧
      (r.practical_usable_area_m2 > 0 →
        r.theoretically_usable_area_m2 =
          (count_nonzero (List.zipWith (fun mv b => if b then mv % 2 else 0)
            maskArr.data
            (flux.data.map (fun v =>
              v.gtQ ((r.flux_stats.mean.getD 0) * (3 / 4))))) : ℚ) *
            (res.x * res.y))) ∧
    (analyze uniformLayers (uniformEnv 1000 1000) =
        .ok (uniformResult 1000 1000) ∧
      (uniformResult 1000 1000).total_roof_area_m2 = 1000 ∧
      (uniformResult 1000 1000).theoretically_usable_area_m2 = 1000 ∧
      (uniformResult 1000 1000).practical_usable_area_m2 = 550 ∧
      (uniformResult 1000 1000).estimated_capacity_kwp = 100 ∧
      (uniformResult 1000 1000).estimated_annual_energy_kwh = 82000) := by
  constructor
  · intro layers env r flux maskArr res h hmask hf hm hgrid
    obtain ⟨-, hc⟩ := analyze_ok h
    obtain ⟨flux2, areas, hf2, hb, hr⟩ := analyzeCore_ok hc
    rw [hf] at hf2
    injection hf2 with hfe
    subst hfe
    rw [if_pos hmask] at hb
    obtain ⟨maskArr2, res2, thr, combined, hm2, hthr, hand, hareas⟩ :=
      maskBranch_ok hb
    rw [hm] at hm2
    injection hm2 with hme
    injection hme with hma hre
    subst hma
    subst hre
    obtain ⟨mval, hmean, hthrv⟩ := flux_threshold_ok hthr
    subst hthrv
    have hz := @numpyAndBool_eq_shapes maskArr flux.shape
      (flux.data.map (fun v => v.gtQ (mval * (3 / 4)))) hgrid
    rw [hand] at hz
    have hcomb : combined = List.zipWith (fun mv b => if b then mv % 2 else 0)
        maskArr.data (flux.data.map (fun v => v.gtQ (mval * (3 / 4)))) := by
      have h2 := (Except.ok.injEq _ _ ▸ hz)
      exact h2
    subst hareas
    subst hr
    simp only [mkAnalysisOk]
    have hg : (analysisStats flux).mean.getD 0 = mval := by
      rw [hmean]
      rfl
    rw [hg, ← hcomb, hmean]
    refine ⟨?_, ?_, ?_, ?_, ?_⟩
    · simp
    · exact hgrid
    · trivial
    · trivial
    · intro hpos
      rw [if_pos hpos]
  · refine ⟨analyze_uniform 1000 (by norm_num) 1000 (by norm_num),
      ?_, ?_, ?_, ?_, ?_⟩ <;>
      norm_num [uniformResult, mkAnalysisOk, capacity_kwp, area_per_kwp,
        annual_energy_kwh, performance_ratio]

/-- Witness for C4 at the one-pixel uniform instance (the scenario half
of the theorem is already hypothesis-free). -/
theorem C4_area_estimator_algorithm_witness :
    analyze uniformLayers (uniformEnv 1 1000) = .ok (uniformResult 1 1000) ∧
    ((uniformResult 1 1000).flux_stats.mean ≠ none ∧
      (⟨[1], List.replicate 1 1⟩ : MaskRaster).shape =
        (⟨[1], List.replicate 1 (.fin 1000)⟩ : FluxRaster).shape ∧
      (uniformResult 1 1000).total_roof_area_m2 =
        (count_nonzero (⟨[1], List.replicate 1 1⟩ : MaskRaster).data : ℚ) *
          ((1 : ℚ) * (1 : ℚ)) ∧
      (uniformResult 1 1000).practical_usable_area_m2 =
        ((count_nonzero (List.zipWith (fun mv b => if b then mv % 2 else 0)
            (⟨[1], List.replicate 1 1⟩ : MaskRaster).data
            ((⟨[1], List.replicate 1 (.fin 1000)⟩ : FluxRaster).data.map
              (fun v =>
                v.gtQ (((uniformResult 1 1000).flux_stats.mean.getD 0) *
                  (3 / 4))))) : ℚ) *
          ((1 : ℚ) * (1 : ℚ))) * (55 / 100) ∧
      ((uniformResult 1 1000).practical_usable_area_m2 > 0 →
        (uniformResult 1 1000).theoretically_usable_area_m2 =
          (count_nonzero (List.zipWith (fun mv b => if b then mv % 2 else 0)
            (⟨[1], List.replicate 1 1⟩ : MaskRaster).data
            ((⟨[1], List.replicate 1 (.fin 1000)⟩ : FluxRaster).data.map
              (fun v =>
                v.gtQ (((uniformResult 1 1000).flux_stats.mean.getD 0) *
                  (3 / 4))))) : ℚ) *
            ((1 : ℚ) * (1 : ℚ)))) :=
  have h := analyze_uniform 1 one_ne_zero 1000 (by norm_num)
  ⟨h, C4_area_estimator_algorithm.1 uniformLayers (uniformEnv 1 1000)
    (uniformResult 1 1000) ⟨[1], List.replicate 1 (.fin 1000)⟩
    ⟨[1], List.replicate 1 1⟩ ⟨1, 1⟩ h rfl rfl rfl rfl⟩

end SolarMatch
